import Mathlib

/-!
Verification development for the ticket-bot repository (src/main.py, src/database.py).

The Python sources are shallowly embedded as executable Lean definitions:

* Discord users and guilds are identified by their integer ids (discord.py
  compares `Member` objects by id, so roster membership tests are id tests).
* The sqlite tables of `database.py` are embedded as association lists keyed
  exactly like the tables' UNIQUE keys; the SQL `INSERT .. ON CONFLICT DO
  UPDATE` upserts become association-list upserts on that unique key.
* Each Discord callback of `main.py` becomes a function from its inputs and
  the relevant state to the new state plus an observable result; external
  facts (does a role resolve, does the actor hold it) are Boolean inputs.
-/

/-! ### Ticket session state (class ActiveTicketView, main.py) -/

/-- In-memory state of one open ticket, as held by `ActiveTicketView.__init__`
(main.py): owner, category, slot capacity and the mutable helper roster
(`self.helpers = []`), helpers identified by user id. -/
structure TicketView where
  owner : Nat
  category : String
  slots : Nat
  helpers : List Nat
deriving DecidableEq, Repr

/-- Observable outcome of `JoinButton.callback` (main.py lines 511-568). -/
inductive JoinResult
  | alreadyInList
  | slotsFull
  | needHelperRole
  | joined
deriving DecidableEq, Repr

/-- `JoinButton.callback` (main.py lines 511-568): reject when the user is
already in the helper list; reject when `len(helpers) >= slots`; reject when a
helper role is configured, resolves, and the user lacks it; otherwise append
the user to the roster. The three Booleans embed the external role facts. -/
def joinCallback (v : TicketView) (u : Nat)
    (helperRoleConfigured roleResolves userHasHelperRole : Bool) :
    TicketView × JoinResult :=
  if u ∈ v.helpers then (v, .alreadyInList)
  else if v.slots ≤ v.helpers.length then (v, .slotsFull)
  else if helperRoleConfigured && roleResolves && !userHasHelperRole then
    (v, .needHelperRole)
  else ({ v with helpers := v.helpers ++ [u] }, .joined)

/-- Observable outcome of `LeaveButton.callback` (main.py lines 582-620). -/
inductive LeaveResult
  | notInList
  | left
deriving DecidableEq, Repr

/-- `LeaveButton.callback` (main.py lines 582-620): reject when the user is not
in the helper list, otherwise `helpers.remove(user)` (first occurrence). -/
def leaveCallback (v : TicketView) (u : Nat) : TicketView × LeaveResult :=
  if u ∈ v.helpers then ({ v with helpers := v.helpers.erase u }, .left)
  else (v, .notInList)

/-! ### Sequences of join/leave actions on one session -/

/-- One user action on an open session: a join attempt (with the external
role facts it runs under) or a leave attempt. -/
inductive TicketAction
  | join (u : Nat) (helperRoleConfigured roleResolves userHasHelperRole : Bool)
  | leave (u : Nat)
deriving DecidableEq, Repr

/-- Did a join callback accept (append the user)? -/
def acceptedJoin : JoinResult → Bool
  | .joined => true
  | _ => false

/-- Did a leave callback accept (remove the user)? -/
def acceptedLeave : LeaveResult → Bool
  | .left => true
  | _ => false

/-- Run one action; the Boolean reports whether the action was accepted
(join appended / leave removed) rather than rejected. -/
def stepAction (v : TicketView) : TicketAction → TicketView × Bool
  | .join u a b c =>
    let r := joinCallback v u a b c
    (r.1, acceptedJoin r.2)
  | .leave u =>
    let r := leaveCallback v u
    (r.1, acceptedLeave r.2)

/-- Run a sequence of actions, returning the final session state together
with the number of accepted joins and the number of accepted leaves. -/
def runActions : TicketView → List TicketAction → TicketView × Nat × Nat
  | v, [] => (v, 0, 0)
  | v, a :: rest =>
    let s := stepAction v a
    let r := runActions s.1 rest
    match a with
    | .join _ _ _ _ => (r.1, r.2.1 + cond s.2 1 0, r.2.2)
    | .leave _ => (r.1, r.2.1, r.2.2 + cond s.2 1 0)

/-- A fresh session as built by `TicketModal.on_submit` /
`ActiveTicketView.__init__`: empty roster. -/
def freshView (owner : Nat) (category : String) (slots : Nat) : TicketView :=
  { owner := owner, category := category, slots := slots, helpers := [] }

/-! ### Roster invariant lemmas -/

lemma joinCallback_cases (v : TicketView) (u : Nat) (a b c : Bool) :
    (joinCallback v u a b c = (v, .alreadyInList) ∧ u ∈ v.helpers) ∨
    joinCallback v u a b c = (v, .slotsFull) ∨
    joinCallback v u a b c = (v, .needHelperRole) ∨
    (joinCallback v u a b c =
        ({ v with helpers := v.helpers ++ [u] }, .joined) ∧
      u ∉ v.helpers ∧ v.helpers.length < v.slots) := by
  unfold joinCallback
  split_ifs with h1 h2 h3
  · exact Or.inl ⟨rfl, h1⟩
  · exact Or.inr (Or.inl rfl)
  · exact Or.inr (Or.inr (Or.inl rfl))
  · exact Or.inr (Or.inr (Or.inr ⟨rfl, h1, Nat.lt_of_not_le h2⟩))

lemma leaveCallback_cases (v : TicketView) (u : Nat) :
    (leaveCallback v u = ({ v with helpers := v.helpers.erase u }, .left) ∧
      u ∈ v.helpers) ∨
    (leaveCallback v u = (v, .notInList) ∧ u ∉ v.helpers) := by
  unfold leaveCallback
  split_ifs with h1
  · exact Or.inl ⟨rfl, h1⟩
  · exact Or.inr ⟨rfl, h1⟩

lemma nodup_append_singleton {l : List Nat} {u : Nat}
    (hnd : l.Nodup) (hmem : u ∉ l) : (l ++ [u]).Nodup := by
  simp [List.nodup_append, hnd, hmem]

lemma runActions_invariant :
    ∀ (acts : List TicketAction) (v : TicketView),
      v.helpers.Nodup → v.helpers.length ≤ v.slots →
      (runActions v acts).1.helpers.Nodup ∧
      (runActions v acts).1.slots = v.slots ∧
      (runActions v acts).1.helpers.length ≤ v.slots ∧
      (runActions v acts).1.helpers.length + (runActions v acts).2.2 =
        (runActions v acts).2.1 + v.helpers.length := by
  intro acts
  induction acts with
  | nil =>
    intro v hnd hle
    exact ⟨hnd, rfl, hle, by simp [runActions]⟩
  | cons a rest ih =>
    intro v hnd hle
    cases a with
    | join u p q w =>
      rcases joinCallback_cases v u p q w with ⟨heq, _⟩ | heq | heq |
        ⟨heq, hmem, hlt⟩
      · obtain ⟨h1, h2, h3, h4⟩ := ih v hnd hle
        simp only [runActions, stepAction, heq, acceptedJoin, cond_false]
        exact ⟨h1, h2, h3, by omega⟩
      · obtain ⟨h1, h2, h3, h4⟩ := ih v hnd hle
        simp only [runActions, stepAction, heq, acceptedJoin, cond_false]
        exact ⟨h1, h2, h3, by omega⟩
      · obtain ⟨h1, h2, h3, h4⟩ := ih v hnd hle
        simp only [runActions, stepAction, heq, acceptedJoin, cond_false]
        exact ⟨h1, h2, h3, by omega⟩
      · have hnd' : ({ v with helpers := v.helpers ++ [u] } :
            TicketView).helpers.Nodup := nodup_append_singleton hnd hmem
        have hle' : ({ v with helpers := v.helpers ++ [u] } :
            TicketView).helpers.length ≤
            ({ v with helpers := v.helpers ++ [u] } : TicketView).slots := by
          simp
          omega
        obtain ⟨h1, h2, h3, h4⟩ := ih _ hnd' hle'
        simp only [runActions, stepAction, heq, acceptedJoin, cond_true]
        refine ⟨h1, h2, h3, ?_⟩
        simp only [List.length_append, List.length_singleton] at h4
        omega
    | leave u =>
      rcases leaveCallback_cases v u with ⟨heq, hmem⟩ | ⟨heq, _⟩
      · have hnd' : ({ v with helpers := v.helpers.erase u } :
            TicketView).helpers.Nodup := hnd.erase u
        have hle' : ({ v with helpers := v.helpers.erase u } :
            TicketView).helpers.length ≤
            ({ v with helpers := v.helpers.erase u } : TicketView).slots := by
          simp only []
          exact le_trans (List.length_erase_le u v.helpers) hle
        obtain ⟨h1, h2, h3, h4⟩ := ih _ hnd' hle'
        simp only [runActions, stepAction, heq, acceptedLeave, cond_true]
        refine ⟨h1, h2, h3, ?_⟩
        have hlen := List.length_erase_of_mem hmem
        have hpos : 0 < v.helpers.length :=
          List.length_pos.mpr (List.ne_nil_of_mem hmem)
        simp only [hlen] at h4
        omega
      · obtain ⟨h1, h2, h3, h4⟩ := ih v hnd hle
        simp only [runActions, stepAction, heq, acceptedLeave, cond_false]
        exact ⟨h1, h2, h3, by omega⟩

lemma joinCallback_twice (v : TicketView) (u : Nat) (a b c : Bool) :
    (joinCallback (joinCallback v u a b c).1 u a b c).1 =
      (joinCallback v u a b c).1 ∧
    ((joinCallback v u a b c).2 = JoinResult.joined →
      (joinCallback (joinCallback v u a b c).1 u a b c).2 =
        JoinResult.alreadyInList) := by
  rcases joinCallback_cases v u a b c with ⟨heq, hmem⟩ | heq | heq |
    ⟨heq, hmem, hlt⟩
  · rw [heq]
    exact ⟨congrArg Prod.fst heq, by rw [heq]; intro hcon; simp at hcon⟩
  · rw [heq]
    exact ⟨congrArg Prod.fst heq, by rw [heq]; intro hcon; simp at hcon⟩
  · rw [heq]
    exact ⟨congrArg Prod.fst heq, by rw [heq]; intro hcon; simp at hcon⟩
  · rw [heq]
    have hmem' : u ∈ ({ v with helpers := v.helpers ++ [u] } :
        TicketView).helpers := by simp
    constructor
    · unfold joinCallback
      rw [if_pos hmem']
    · intro _
      unfold joinCallback
      rw [if_pos hmem']

/-- Claim C1: for every sequence of join and leave actions on one open ticket
session with slot capacity N, the helper roster's size never exceeds N, the
roster never contains the same helper identity twice, and the roster size
equals the number of accepted joins minus the number of accepted leaves;
moreover a second consecutive join by the same actor is rejected
(already-in-list) and leaves the session state unchanged, so two joins in a
row have the same net effect as one. -/
theorem c1_roster_invariants :
    (∀ (owner : Nat) (cat : String) (N : Nat) (acts : List TicketAction),
      (runActions (freshView owner cat N) acts).1.helpers.Nodup ∧
      (runActions (freshView owner cat N) acts).1.helpers.length ≤ N ∧
      (runActions (freshView owner cat N) acts).1.helpers.length +
          (runActions (freshView owner cat N) acts).2.2 =
        (runActions (freshView owner cat N) acts).2.1) ∧
    (∀ (v : TicketView) (u : Nat) (a b c : Bool),
      (joinCallback (joinCallback v u a b c).1 u a b c).1 =
        (joinCallback v u a b c).1 ∧
      ((joinCallback v u a b c).2 = JoinResult.joined →
        (joinCallback (joinCallback v u a b c).1 u a b c).2 =
          JoinResult.alreadyInList)) := by
  constructor
  · intro owner cat N acts
    have h := runActions_invariant acts (freshView owner cat N)
      (by simp [freshView]) (by simp [freshView])
    obtain ⟨h1, _, h3, h4⟩ := h
    exact ⟨h1, h3, by simpa [freshView] using h4⟩
  · exact joinCallback_twice

/-- Witness for C1 at a concrete input: on a capacity-2 session, a join by
user 5 is accepted and an immediately repeated join by user 5 is rejected
as already-in-list. -/
theorem c1_roster_invariants_witness :
    (joinCallback (joinCallback (freshView 0 "Grim Express" 2) 5 false false
        false).1 5 false false false).2 = JoinResult.alreadyInList :=
  (c1_roster_invariants.2 (freshView 0 "Grim Express" 2) 5 false false
    false).2 (by decide)

/-! ### Points ledger (table user_points, database.py) -/

/-- The `user_points` table: rows keyed by the UNIQUE pair
(guild_id, user_id), carrying a point balance. -/
abbrev Ledger := List ((Nat × Nat) × Nat)

/-- `DatabaseManager.get_user_points` (database.py lines 213-221):
SELECT points WHERE guild_id = g AND user_id = u, defaulting to 0 when no
row exists. -/
def get_user_points : Ledger → Nat → Nat → Nat
  | [], _, _ => 0
  | e :: rest, g, u => if e.1 = (g, u) then e.2 else get_user_points rest g u

/-- `DatabaseManager.update_user_points` (database.py lines 223-233):
INSERT .. ON CONFLICT(guild_id, user_id) DO UPDATE SET points = p, i.e. an
upsert on the unique (guild, user) key. -/
def update_user_points : Ledger → Nat → Nat → Nat → Ledger
  | [], g, u, p => [((g, u), p)]
  | e :: rest, g, u, p =>
    if e.1 = (g, u) then ((g, u), p) :: rest
    else e :: update_user_points rest g u p

/-- The award loop of `CloseButton.callback` (main.py lines 800-803): for each
helper in roster order, read the current balance and write back
balance + points. -/
def awardHelpers : Ledger → Nat → List Nat → Nat → Ledger
  | l, _, [], _ => l
  | l, g, h :: rest, pts =>
    awardHelpers (update_user_points l g h (get_user_points l g h + pts))
      g rest pts

/-! ### Category catalog (tables point_values / helper_slots, and the
built-in defaults of main.py lines 26-40) -/

/-- `DEFAULT_POINT_VALUES` (main.py lines 26-34). -/
def DEFAULT_POINT_VALUES : List (String × Nat) :=
  [("Ultra Speaker Express", 8),
   ("Ultra Gramiel Express", 7),
   ("4-Man Ultra Daily Express", 4),
   ("7-Man Ultra Daily Express", 7),
   ("Ultra Weekly Express", 12),
   ("Grim Express", 10),
   ("Daily Temple Express", 6)]

/-- `DEFAULT_HELPER_SLOTS` (main.py lines 36-39). -/
def DEFAULT_HELPER_SLOTS : List (String × Nat) :=
  [("7-Man Ultra Daily Express", 6),
   ("Grim Express", 6)]

/-- `DEFAULT_SLOTS` (main.py line 40). -/
def DEFAULT_SLOTS : Nat := 3

/-- Python `dict.get(key, default)` over a category-keyed dictionary. -/
def dictGet : List (String × Nat) → String → Nat → Nat
  | [], _, d => d
  | e :: rest, k, d => if e.1 = k then e.2 else dictGet rest k d

/-- A per-guild catalog table (`point_values` or `helper_slots`,
database.py): rows keyed by the UNIQUE pair (guild_id, service_name). -/
abbrev CatalogDB := List ((Nat × String) × Nat)

/-- `DatabaseManager.get_point_values` / `get_helper_slots` (database.py
lines 167-175, 190-198): SELECT service_name, value WHERE guild_id = g,
returned as a dictionary. -/
def dbCatalogRows (t : CatalogDB) (g : Nat) : List (String × Nat) :=
  (t.filter (fun e => e.1.1 = g)).map (fun e => (e.1.2, e.2))

/-- `get_point_values` (main.py lines 65-68): the stored per-guild dictionary
when it is non-empty, else the built-in `DEFAULT_POINT_VALUES`; the read
performs no write, so the store is returned unchanged. -/
def get_point_values (t : CatalogDB) (g : Nat) :
    List (String × Nat) × CatalogDB :=
  (if (dbCatalogRows t g).isEmpty then DEFAULT_POINT_VALUES
   else dbCatalogRows t g, t)

/-- `get_helper_slots` (main.py lines 70-73): same fallback shape over
`DEFAULT_HELPER_SLOTS`. -/
def get_helper_slots (t : CatalogDB) (g : Nat) :
    List (String × Nat) × CatalogDB :=
  (if (dbCatalogRows t g).isEmpty then DEFAULT_HELPER_SLOTS
   else dbCatalogRows t g, t)

/-! ### Ticket-number counter (table ticket_numbers, database.py) -/

/-- The `ticket_numbers` table: rows keyed by the UNIQUE pair
(guild_id, category), carrying `current_number`. -/
abbrev CounterDB := List ((Nat × String) × Nat)

/-- SELECT current_number WHERE guild_id = g AND category = c, defaulting to
0 when no row exists (database.py lines 259-264). -/
def counterValue : CounterDB → Nat → String → Nat
  | [], _, _ => 0
  | e :: rest, g, c => if e.1 = (g, c) then e.2 else counterValue rest g c

/-- INSERT .. ON CONFLICT(guild_id, category) DO UPDATE SET
current_number = n: upsert on the unique (guild, category) key. -/
def upsertCounter : CounterDB → Nat → String → Nat → CounterDB
  | [], g, c, n => [((g, c), n)]
  | e :: rest, g, c, n =>
    if e.1 = (g, c) then ((g, c), n) :: rest
    else e :: upsertCounter rest g c n

/-- `DatabaseManager.get_next_ticket_number` (database.py lines 255-276):
read the current value (default 0), increment, persist via upsert, and
return the new value. -/
def get_next_ticket_number (db : CounterDB) (g : Nat) (c : String) :
    CounterDB × Nat :=
  let n := counterValue db g c + 1
  (upsertCounter db g c n, n)

/-- `DatabaseManager.reset_ticket_number` (database.py lines 278-288):
upsert current_number = 0 unconditionally. -/
def reset_ticket_number (db : CounterDB) (g : Nat) (c : String) : CounterDB :=
  upsertCounter db g c 0

/-- N sequential `get_next_ticket_number` calls for a fixed (guild,
category), collecting the returned numbers in call order. -/
def nextCalls (g : Nat) (c : String) : CounterDB → Nat → CounterDB × List Nat
  | db, 0 => (db, [])
  | db, n + 1 =>
    let s := get_next_ticket_number db g c
    let r := nextCalls g c s.1 n
    (r.1, s.2 :: r.2)

/-! ### Server configuration and ticket creation (TicketModal.on_submit) -/

/-- The fields of a `server_configs` row that the ticket flows consult
(database.py lines 18-31); NULL columns are `none`. -/
structure ServerConfig where
  helper_role_id : Option Nat
  viewer_role_id : Option Nat
  blocked_role_id : Option Nat
  ticket_category_id : Option Nat
  transcript_channel_id : Option Nat
deriving DecidableEq, Repr

/-- Observable outcome of `TicketModal.on_submit` (main.py lines 362-491). -/
inductive SubmitResult
  | notConfigured
  | blockedUser
  | categoryMissing
  | created (ticketNumber : Nat)
deriving DecidableEq, Repr

/-- `TicketModal.on_submit` (main.py lines 362-491), up to channel creation:
abort when no config resolves; reject with a permission message when a
blocked role is configured, resolves in the guild, and the submitting user
holds it (lines 372-381); abort when the ticket category channel does not
resolve (lines 389-394); otherwise draw a fresh ticket number from the
counter (line 437) and create the session. `roleResolves` embeds
`guild.get_role` (does the id resolve to a live role) and `userRoles` the
submitting user's role ids. -/
def on_submit (cfg? : Option ServerConfig) (roleResolves : Nat → Bool)
    (userRoles : List Nat) (categoryResolves : Bool) (db : CounterDB)
    (g : Nat) (cat : String) : SubmitResult × CounterDB :=
  match cfg? with
  | none => (.notConfigured, db)
  | some cfg =>
    let blockedHit :=
      match cfg.blocked_role_id with
      | some rid => roleResolves rid && decide (rid ∈ userRoles)
      | none => false
    if blockedHit then (.blockedUser, db)
    else if !categoryResolves then (.categoryMissing, db)
    else
      let s := get_next_ticket_number db g cat
      (.created s.2, s.1)

/-! ### Transcript generation and ticket close (CloseButton.callback) -/

/-- One message of the backing channel, in the shape the transcript loop
reads (timestamp, author, content). -/
structure ChannelMsg where
  timestamp : String
  author : String
  content : String
deriving DecidableEq, Repr

/-- discord.py `channel.history(limit=n, oldest_first=True)` (called at
main.py line 768): with `oldest_first=True` the iterator walks the channel
from its beginning, so it yields the channel's oldest `n` messages in
chronological (oldest-to-newest) order; messages newer than those first `n`
are never fetched. `msgs` is the channel's full message list in
chronological order. -/
def historyOldestFirst (msgs : List ChannelMsg) (n : Nat) : List ChannelMsg :=
  msgs.take n

/-- The spec's wording of the transcript bound, for comparison: "the most
recent `n` messages, rendered oldest first". -/
def specMostRecent (msgs : List ChannelMsg) (n : Nat) : List ChannelMsg :=
  (msgs.reverse.take n).reverse

/-- Message rendering of the transcript loop (main.py line 770). -/
def formatMsg (m : ChannelMsg) : String :=
  "[" ++ m.timestamp ++ "] " ++ m.author ++ ": " ++ m.content

/-- The transcript header block (main.py lines 758-765): channel name,
requester, category, open/close timestamps, closer, comma-joined helpers,
then a 50-character separator line. -/
def transcriptHeader (channelName : String) (v : TicketView)
    (openedAt closedAt closer : String) : List String :=
  ["Transcript of " ++ channelName,
   "Created by: " ++ toString v.owner,
   "Service: " ++ v.category,
   "Opened: " ++ openedAt,
   "Closed: " ++ closedAt,
   "Closed by: " ++ closer,
   "Helpers: " ++ String.intercalate ", " (v.helpers.map toString),
   String.mk (List.replicate 50 '=')]

/-- The full transcript artifact (main.py lines 757-772): header block, then
the fetched channel history in chronological order, one line per message. -/
def buildTranscript (channelName : String) (v : TicketView)
    (openedAt closedAt closer : String) (msgs : List ChannelMsg) :
    List String :=
  transcriptHeader channelName v openedAt closedAt closer ++
    (historyOldestFirst msgs 100).map formatMsg

/-- Result of one run of `CloseButton.callback` (main.py lines 739-807).
`viewAfter` is the ticket view as the callback leaves it (the callback never
writes any `ticket_view` field); `channelDeleted` records that
`interaction.channel.delete()` ran — in the source only after an
`asyncio.sleep(3)` grace delay, during which the view's buttons remain
live. -/
structure CloseOutcome where
  viewAfter : TicketView
  deliveredTranscript : Option (List String)
  ledger : Ledger
  channelDeleted : Bool
deriving DecidableEq, Repr

/-- `CloseButton.callback` (main.py lines 739-807): admins only; build the
transcript; deliver it only when the config has a `transcript_channel_id`
that resolves to a live channel (lines 775-794, otherwise delivery is simply
skipped); award `point_values.get(category, 0)` to every helper in the
roster (lines 796-803); finally delete the backing channel after the grace
delay. No session field is mutated and no settled mark is recorded. -/
def closeCallback (isAdmin : Bool) (cfg? : Option ServerConfig)
    (channelResolves : Nat → Bool) (channelName : String) (v : TicketView)
    (openedAt closedAt closer : String) (msgs : List ChannelMsg)
    (pvdb : CatalogDB) (ledger : Ledger) (g : Nat) : CloseOutcome :=
  if !isAdmin then
    { viewAfter := v, deliveredTranscript := none, ledger := ledger,
      channelDeleted := false }
  else
    let transcript := buildTranscript channelName v openedAt closedAt closer
      msgs
    let delivered :=
      match cfg? with
      | some cfg =>
        match cfg.transcript_channel_id with
        | some cid => if channelResolves cid then some transcript else none
        | none => none
      | none => none
    let pts := dictGet (get_point_values pvdb g).1 v.category 0
    { viewAfter := v,
      deliveredTranscript := delivered,
      ledger := awardHelpers ledger g v.helpers pts,
      channelDeleted := true }

/-! ### Guild-wide remove-helper command (main.py lines 819-887) -/

/-- `discord.Member.mention` for a user id. -/
def mentionOf (u : Nat) : String := "<@" ++ toString u ++ ">"

/-- Python `sub in s` substring test: splitting on a non-empty occurring
substring yields more than one part. -/
def strContains (s sub : String) : Bool := (s.splitOn sub).length != 1

/-- The slot-clearing edit applied to one display line
(main.py lines 854-855): keep `line.split(".")[0]` and re-render the slot as
empty. -/
def clearSlotLine (line : String) : String :=
  (line.splitOn ".").headD "" ++ ". [Empty]"

/-- The embed-edit loop of `remove_helper` (main.py lines 851-856): rewrite
the first display line containing the target's mention, leave the rest. -/
def removeMentionFromLines : List String → String → List String
  | [], _ => []
  | l :: rest, m =>
    if strContains l m then clearSlotLine l :: rest
    else l :: removeMentionFromLines rest m

/-- One ticket channel as the command sees it: the in-memory session view
and the rendered helper-field lines of its ticket embed. -/
structure TicketChannelState where
  view : TicketView
  helperFieldLines : List String
deriving DecidableEq, Repr

/-- The `!removehelper` command body (main.py lines 841-876): for every
channel whose helper field contains the target's mention, edit the displayed
field; the command never touches any `ActiveTicketView.helpers` list. -/
def remove_helper_command (channels : List TicketChannelState) (u : Nat) :
    List TicketChannelState :=
  channels.map (fun ch =>
    if ch.helperFieldLines.any (fun l => strContains l (mentionOf u)) then
      { ch with helperFieldLines :=
          removeMentionFromLines ch.helperFieldLines (mentionOf u) }
    else ch)

/-! ### Reset-all-points flows (main.py lines 1302-1331 and 1353-1374) -/

/-- The method names the `DatabaseManager` class body defines
(database.py lines 9-311). -/
def databaseManagerMethods : List String :=
  ["initialize_database", "get_server_config", "update_server_config",
   "get_admin_roles", "set_admin_roles", "get_point_values",
   "set_point_values", "get_helper_slots", "set_helper_slots",
   "get_user_points", "update_user_points", "add_user_points",
   "set_user_points", "get_all_user_points", "get_next_ticket_number",
   "reset_ticket_number", "get_custom_rule", "set_custom_rule"]

/-- Python attribute lookup `db.clear_all_points`: `DatabaseManager` defines
no method of that name (see `databaseManagerMethods`), so the lookup yields
no callable — at run time an AttributeError. -/
def clear_all_points_attr : Option (Ledger → Nat → Ledger) := none

/-- How the confirmation prompt of a reset flow ended: the 30-second
`bot.wait_for` timed out, or the invoking admin typed `confirm`. -/
inductive ConfirmBranch
  | timeout
  | confirmed
deriving DecidableEq, Repr

/-- Observable outcome of a reset-all flow: the user_points table afterwards,
and whether the flow raised (AttributeError) instead of completing. -/
structure ResetOutcome where
  ledger : Ledger
  raised : Bool
deriving DecidableEq, Repr

/-- The all-users branch of `reset_points` (main.py lines 1320-1331): on
timeout the action is abandoned; on `confirm` it calls
`db.clear_all_points(guild)`, whose attribute lookup fails before any
balance is touched. -/
def reset_points_all (ledger : Ledger) (g : Nat) :
    ConfirmBranch → ResetOutcome
  | .timeout => { ledger := ledger, raised := false }
  | .confirmed =>
    match clear_all_points_attr with
    | none => { ledger := ledger, raised := true }
    | some f => { ledger := f ledger g, raised := false }

/-- `restart_leaderboard` (main.py lines 1353-1374): identical
confirm-then-`db.clear_all_points(guild)` shape. -/
def restart_leaderboard_command (ledger : Ledger) (g : Nat) :
    ConfirmBranch → ResetOutcome
  | .timeout => { ledger := ledger, raised := false }
  | .confirmed =>
    match clear_all_points_attr with
    | none => { ledger := ledger, raised := true }
    | some f => { ledger := f ledger g, raised := false }

/-! ### Ledger and counter lemmas -/

lemma get_update_same (l : Ledger) (g u p : Nat) :
    get_user_points (update_user_points l g u p) g u = p := by
  induction l with
  | nil => simp [update_user_points, get_user_points]
  | cons e rest ih =>
    by_cases h : e.1 = (g, u) <;>
      simp [update_user_points, get_user_points, h, ih]

lemma get_update_ne (l : Ledger) (g u p g' u' : Nat)
    (hne : (g', u') ≠ (g, u)) :
    get_user_points (update_user_points l g u p) g' u' =
      get_user_points l g' u' := by
  induction l with
  | nil => simp [update_user_points, get_user_points, Ne.symm hne]
  | cons e rest ih =>
    by_cases h : e.1 = (g, u)
    · simp [update_user_points, get_user_points, h, Ne.symm hne]
    · simp [update_user_points, get_user_points, h, ih]

lemma awardHelpers_get_not_mem :
    ∀ (hs : List Nat) (l : Ledger) (g pts u : Nat), u ∉ hs →
      get_user_points (awardHelpers l g hs pts) g u = get_user_points l g u := by
  intro hs
  induction hs with
  | nil => intro l g pts u _; rfl
  | cons h t ih =>
    intro l g pts u hmem
    have hne : u ≠ h := fun hcon => hmem (hcon ▸ List.mem_cons_self h t)
    have hnt : u ∉ t := fun hcon => hmem (List.mem_cons_of_mem h hcon)
    simp only [awardHelpers]
    rw [ih _ g pts u hnt]
    exact get_update_ne _ g h _ g u (by simp [hne])

lemma awardHelpers_get_mem :
    ∀ (hs : List Nat) (l : Ledger) (g pts u : Nat), hs.Nodup → u ∈ hs →
      get_user_points (awardHelpers l g hs pts) g u =
        get_user_points l g u + pts := by
  intro hs
  induction hs with
  | nil => intro l g pts u _ hmem; exact absurd hmem (List.not_mem_nil u)
  | cons h t ih =>
    intro l g pts u hnd hmem
    have hnd' : t.Nodup := hnd.of_cons
    have hht : h ∉ t := (List.nodup_cons.mp hnd).1
    by_cases hu : u = h
    · subst hu
      simp only [awardHelpers]
      rw [awardHelpers_get_not_mem t _ g pts u hht]
      exact get_update_same l g u _
    · have hut : u ∈ t := by
        rcases List.mem_cons.mp hmem with hcon | hm
        · exact absurd hcon hu
        · exact hm
      simp only [awardHelpers]
      rw [ih _ g pts u hnd' hut]
      rw [get_update_ne l g h _ g u (by simp [hu])]

lemma counterValue_upsert (db : CounterDB) (g : Nat) (c : String) (n : Nat) :
    counterValue (upsertCounter db g c n) g c = n := by
  induction db with
  | nil => simp [upsertCounter, counterValue]
  | cons e rest ih =>
    by_cases h : e.1 = (g, c) <;> simp [upsertCounter, counterValue, h, ih]

lemma nextCalls_values (g : Nat) (c : String) :
    ∀ (N : Nat) (db : CounterDB),
      (nextCalls g c db N).2 = List.range' (counterValue db g c + 1) N := by
  intro N
  induction N with
  | zero => intro db; rfl
  | succ n ih =>
    intro db
    have hstep : (nextCalls g c db (n + 1)).2 =
        (counterValue db g c + 1) ::
          (nextCalls g c
            (upsertCounter db g c (counterValue db g c + 1)) n).2 := rfl
    rw [hstep, ih, counterValue_upsert]
    rfl

/-! ### Claim theorems C2-C10 -/

/-- Claim C2 (refuted at a concrete input): `CloseButton.callback` runs its
award loop unconditionally on every invocation and records no settled mark,
so a second settlement of the same session credits each helper again. With
category "Grim Express" (default value 10) and roster [7], one close leaves
user 7 at 10 points and a second close at 20, contradicting exactly-once. -/
theorem c2_double_settlement_credits_twice :
    get_user_points (closeCallback true none (fun _ => false) "ch"
        ⟨0, "Grim Express", 6, [7]⟩ "o" "c" "a" [] [] [] 1).ledger 1 7 = 10 ∧
    get_user_points (closeCallback true none (fun _ => false) "ch"
        ⟨0, "Grim Express", 6, [7]⟩ "o" "c" "a" [] []
        (closeCallback true none (fun _ => false) "ch"
          ⟨0, "Grim Express", 6, [7]⟩ "o" "c" "a" [] [] [] 1).ledger
        1).ledger 1 7 = 20 := by
  constructor <;> rfl

/-- Claim C3 (refuted at a concrete input): the close flow defines no
Closing state — `CloseButton.callback` leaves every `ticket_view` field
unchanged and `JoinButton.callback` consults only roster, capacity and
role, so a join arriving after close has begun (inside the 3-second grace
window before `channel.delete()`) is accepted and mutates the roster. -/
theorem c3_no_closing_freeze :
    (closeCallback true none (fun _ => false) "ch"
        ⟨0, "Grim Express", 6, [7]⟩ "o" "c" "a" [] [] [] 1).viewAfter =
      ⟨0, "Grim Express", 6, [7]⟩ ∧
    joinCallback
        (closeCallback true none (fun _ => false) "ch"
          ⟨0, "Grim Express", 6, [7]⟩ "o" "c" "a" [] [] [] 1).viewAfter
        8 false false false =
      (⟨0, "Grim Express", 6, [7, 8]⟩, JoinResult.joined) := by
  constructor <;> rfl

/-- Claim C4: for a fixed (guild, category) starting from an absent-or-zero
counter, N sequential `get_next_ticket_number` calls return exactly
1, 2, ..., N; each call reads the current value (default 0), increments,
persists and returns the new value; `reset_ticket_number` sets the counter
to 0 unconditionally, and the next call after a reset returns 1. -/
theorem c4_counter_sequence :
    (∀ (db : CounterDB) (g : Nat) (c : String) (N : Nat),
      counterValue db g c = 0 →
      (nextCalls g c db N).2 = List.range' 1 N) ∧
    (∀ (db : CounterDB) (g : Nat) (c : String),
      counterValue (reset_ticket_number db g c) g c = 0 ∧
      (get_next_ticket_number (reset_ticket_number db g c) g c).2 = 1) := by
  constructor
  · intro db g c N h0
    rw [nextCalls_values, h0]
  · intro db g c
    have h := counterValue_upsert db g c 0
    exact ⟨h, by simp [get_next_ticket_number, reset_ticket_number, h]⟩

/-- Witness for C4: on an empty counter table (current value 0), three
sequential calls return exactly [1, 2, 3]. -/
theorem c4_counter_sequence_witness :
    (nextCalls 1 "Daily Temple Express" [] 3).2 = List.range' 1 3 :=
  c4_counter_sequence.1 [] 1 "Daily Temple Express" 3 (by decide)

/-- Claim C5: when a session closes, every helper in the (duplicate-free)
roster at close time has their stored balance increased by exactly the
catalog point value of the session's category (0 when the category is
unknown, with the built-in default catalog used when the guild stores
none), and every user not in the roster at close — in particular anyone who
left before close — is credited nothing. -/
theorem c5_award_per_helper :
    ∀ (cfg? : Option ServerConfig) (chRes : Nat → Bool) (name : String)
      (v : TicketView) (o c cl : String) (msgs : List ChannelMsg)
      (pvdb : CatalogDB) (ledger : Ledger) (g u : Nat),
      v.helpers.Nodup →
      (u ∈ v.helpers →
        get_user_points
            (closeCallback true cfg? chRes name v o c cl msgs pvdb ledger
              g).ledger g u =
          get_user_points ledger g u +
            dictGet (get_point_values pvdb g).1 v.category 0) ∧
      (u ∉ v.helpers →
        get_user_points
            (closeCallback true cfg? chRes name v o c cl msgs pvdb ledger
              g).ledger g u =
          get_user_points ledger g u) := by
  intro cfg? chRes name v o c cl msgs pvdb ledger g u hnd
  have hred : (closeCallback true cfg? chRes name v o c cl msgs pvdb ledger
      g).ledger =
      awardHelpers ledger g v.helpers
        (dictGet (get_point_values pvdb g).1 v.category 0) := rfl
  rw [hred]
  constructor
  · intro hmem
    exact awardHelpers_get_mem v.helpers ledger g _ u hnd hmem
  · intro hmem
    exact awardHelpers_get_not_mem v.helpers ledger g _ u hmem

/-- Witness for C5, the spec's own example: category "Grim Express" (default
value 10), roster [1, 2] at close (user 3 joined then left): users 1 and 2
end at 10 points each, user 3 at 0. -/
theorem c5_award_per_helper_witness :
    get_user_points (closeCallback true none (fun _ => false) "ch"
        ⟨0, "Grim Express", 6, [1, 2]⟩ "o" "c" "a" [] [] [] 1).ledger 1 1 =
      10 ∧
    get_user_points (closeCallback true none (fun _ => false) "ch"
        ⟨0, "Grim Express", 6, [1, 2]⟩ "o" "c" "a" [] [] [] 1).ledger 1 2 =
      10 ∧
    get_user_points (closeCallback true none (fun _ => false) "ch"
        ⟨0, "Grim Express", 6, [1, 2]⟩ "o" "c" "a" [] [] [] 1).ledger 1 3 =
      0 := by
  refine ⟨?_, ?_, ?_⟩
  · exact ((c5_award_per_helper none (fun _ => false) "ch"
      ⟨0, "Grim Express", 6, [1, 2]⟩ "o" "c" "a" [] [] [] 1 1
      (by decide)).1 (by decide)).trans (by decide)
  · exact ((c5_award_per_helper none (fun _ => false) "ch"
      ⟨0, "Grim Express", 6, [1, 2]⟩ "o" "c" "a" [] [] [] 1 2
      (by decide)).1 (by decide)).trans (by decide)
  · exact ((c5_award_per_helper none (fun _ => false) "ch"
      ⟨0, "Grim Express", 6, [1, 2]⟩ "o" "c" "a" [] [] [] 1 3
      (by decide)).2 (by decide)).trans (by decide)

/-- Claim C6: a create attempt by an actor holding the configured blocked
role (the role resolves in the guild and is among the actor's roles) is
rejected with the permission-denied response, the counter table is returned
unchanged (no increment), and no session is created. -/
theorem c6_blocked_role_rejected :
    ∀ (cfg : ServerConfig) (roleResolves : Nat → Bool) (userRoles : List Nat)
      (catOk : Bool) (db : CounterDB) (g : Nat) (cat : String) (rid : Nat),
      cfg.blocked_role_id = some rid → roleResolves rid = true →
      rid ∈ userRoles →
      on_submit (some cfg) roleResolves userRoles catOk db g cat =
        (.blockedUser, db) ∧
      ∀ n, (on_submit (some cfg) roleResolves userRoles catOk db g cat).1 ≠
        SubmitResult.created n := by
  intro cfg roleResolves userRoles catOk db g cat rid hbr hres hmem
  have h : on_submit (some cfg) roleResolves userRoles catOk db g cat =
      (.blockedUser, db) := by
    simp [on_submit, hbr, hres, hmem]
  refine ⟨h, ?_⟩
  intro n
  rw [h]
  simp

/-- Witness for C6: a user holding blocked role 9 (which resolves) submits a
"Grim Express" ticket against an empty counter table; the result is the
blocked rejection with the counter table unchanged. -/
theorem c6_blocked_role_rejected_witness :
    on_submit (some ⟨none, none, some 9, some 5, none⟩) (fun _ => true)
        [9] true [] 1 "Grim Express" = (.blockedUser, []) :=
  (c6_blocked_role_rejected ⟨none, none, some 9, some 5, none⟩
    (fun _ => true) [9] true [] 1 "Grim Express" 9 rfl rfl
    (by decide)).1

/-- A 101-message channel (chronological order): message i has timestamp,
author and content derived from i. -/
def c7msgs : List ChannelMsg :=
  (List.range 101).map (fun i => ⟨toString i, "a", toString i⟩)

/-- Claim C7 counterexample: on a channel holding 101 messages, the
transcript the code builds is NOT the header followed by the most recent
100 messages — `history(limit=100, oldest_first=True)` walks from the
channel's beginning, so the transcript holds the oldest 100 (message 0 is
kept, message 100 is the one omitted), while the claim keeps messages
1..100. -/
theorem c7_transcript_counterexample :
    buildTranscript "ch" (freshView 0 "Grim Express" 6) "o" "c" "a" c7msgs ≠
      transcriptHeader "ch" (freshView 0 "Grim Express" 6) "o" "c" "a" ++
        (specMostRecent c7msgs 100).map formatMsg := by
  decide

/-- Claim C7 (amended): the generated transcript is the header block
followed by the channel's oldest 100 messages in chronological order
(messages beyond the first 100 — the newest ones — are silently omitted;
a channel of at most 100 messages is rendered in full); and when no
transcript destination is configured for the guild, no transcript is
delivered — without this being an error — while the point awards and the
channel teardown still proceed. -/
theorem c7_transcript_amended :
    ∀ (cfg? : Option ServerConfig) (chRes : Nat → Bool) (name : String)
      (v : TicketView) (o c cl : String) (msgs : List ChannelMsg)
      (pvdb : CatalogDB) (ledger : Ledger) (g : Nat),
      buildTranscript name v o c cl msgs =
        transcriptHeader name v o c cl ++ (msgs.take 100).map formatMsg ∧
      (msgs.length ≤ 100 →
        buildTranscript name v o c cl msgs =
          transcriptHeader name v o c cl ++ msgs.map formatMsg) ∧
      ((cfg? = none ∨
          ∃ cfg, cfg? = some cfg ∧ cfg.transcript_channel_id = none) →
        (closeCallback true cfg? chRes name v o c cl msgs pvdb ledger
            g).deliveredTranscript = none ∧
        (closeCallback true cfg? chRes name v o c cl msgs pvdb ledger
            g).ledger =
          awardHelpers ledger g v.helpers
            (dictGet (get_point_values pvdb g).1 v.category 0) ∧
        (closeCallback true cfg? chRes name v o c cl msgs pvdb ledger
            g).channelDeleted = true) := by
  intro cfg? chRes name v o c cl msgs pvdb ledger g
  refine ⟨rfl, ?_, ?_⟩
  · intro hlen
    unfold buildTranscript historyOldestFirst
    rw [List.take_of_length_le hlen]
  · intro hdest
    rcases hdest with rfl | ⟨cfg, rfl, hnone⟩
    · exact ⟨rfl, rfl, rfl⟩
    · refine ⟨?_, rfl, rfl⟩
      simp [closeCallback, hnone]

/-- Witness for C7 (amended) at a concrete input: closing a one-message
ticket on a guild with no stored config delivers no transcript while the
helper is still paid and the channel deleted. -/
theorem c7_transcript_amended_witness :
    (closeCallback true none (fun _ => false) "ch"
        ⟨0, "Grim Express", 6, [7]⟩ "o" "c" "a" [⟨"t", "a", "hi"⟩] [] []
        1).deliveredTranscript = none ∧
    (closeCallback true none (fun _ => false) "ch"
        ⟨0, "Grim Express", 6, [7]⟩ "o" "c" "a" [⟨"t", "a", "hi"⟩] [] []
        1).channelDeleted = true := by
  have h := (c7_transcript_amended none (fun _ => false) "ch"
    ⟨0, "Grim Express", 6, [7]⟩ "o" "c" "a" [⟨"t", "a", "hi"⟩] [] []
    1).2.2 (Or.inl rfl)
  exact ⟨h.1, h.2.2⟩

/-- Claim C8: a guild with no stored catalog rows reads the built-in
defaults — point value 10 and slot capacity 6 for "Grim Express", point
value 8 and slot capacity 3 (the default slot count) for "Ultra Speaker
Express" — and the fallback reads leave the store untouched (nothing is
persisted). -/
theorem c8_default_catalog :
    ∀ (pvdb hsdb : CatalogDB) (g : Nat),
      dbCatalogRows pvdb g = [] → dbCatalogRows hsdb g = [] →
      dictGet (get_point_values pvdb g).1 "Grim Express" 0 = 10 ∧
      dictGet (get_helper_slots hsdb g).1 "Grim Express" DEFAULT_SLOTS = 6 ∧
      dictGet (get_point_values pvdb g).1 "Ultra Speaker Express" 0 = 8 ∧
      dictGet (get_helper_slots hsdb g).1 "Ultra Speaker Express"
          DEFAULT_SLOTS = 3 ∧
      (get_point_values pvdb g).2 = pvdb ∧
      (get_helper_slots hsdb g).2 = hsdb := by
  intro pvdb hsdb g h1 h2
  have e1 : (get_point_values pvdb g).1 = DEFAULT_POINT_VALUES := by
    simp [get_point_values, h1]
  have e2 : (get_helper_slots hsdb g).1 = DEFAULT_HELPER_SLOTS := by
    simp [get_helper_slots, h2]
  rw [e1, e2]
  exact ⟨by decide, by decide, by decide, by decide, rfl, rfl⟩

/-- Witness for C8: the empty store (no rows for any guild). -/
theorem c8_default_catalog_witness :
    dictGet (get_point_values [] 1).1 "Grim Express" 0 = 10 ∧
    dictGet (get_helper_slots [] 1).1 "Ultra Speaker Express"
        DEFAULT_SLOTS = 3 := by
  have h := c8_default_catalog [] [] 1 rfl rfl
  exact ⟨h.1, h.2.2.2.1⟩

lemma remove_helper_command_views (channels : List TicketChannelState)
    (u : Nat) :
    (remove_helper_command channels u).map TicketChannelState.view =
      channels.map TicketChannelState.view := by
  induction channels with
  | nil => rfl
  | cons ch rest ih =>
    simp only [remove_helper_command, List.map] at ih ⊢
    split_ifs <;> simpa using ih

/-- Claim C9: the guild-wide `!removehelper` command mutates only the
rendered helper-field display of each matching ticket embed; the in-memory
session rosters are untouched, so the award computation at settlement is
unchanged by the command. -/
theorem c9_remove_helper_display_only :
    ∀ (channels : List TicketChannelState) (u : Nat),
      (remove_helper_command channels u).map TicketChannelState.view =
        channels.map TicketChannelState.view ∧
      ∀ (ledger : Ledger) (g pts : Nat),
        (remove_helper_command channels u).map
            (fun ch => awardHelpers ledger g ch.view.helpers pts) =
          channels.map
            (fun ch => awardHelpers ledger g ch.view.helpers pts) := by
  intro channels u
  refine ⟨remove_helper_command_views channels u, ?_⟩
  intro ledger g pts
  have h := congrArg
    (List.map (fun w : TicketView => awardHelpers ledger g w.helpers pts))
    (remove_helper_command_views channels u)
  simpa [List.map_map, Function.comp] using h

/-- Claim C10: both reset-all-points flows (`resetpoints` with no member and
`restartleaderboard`) leave every stored per-(guild, user) balance
unchanged: the timeout branch abandons the action with no state change, and
the confirm branch looks up `db.clear_all_points`, a method
`DatabaseManager` does not define, so it raises AttributeError before
touching any balance. -/
theorem c10_reset_flows_preserve_points :
    ∀ (ledger : Ledger) (g : Nat) (b : ConfirmBranch),
      (reset_points_all ledger g b).ledger = ledger ∧
      (restart_leaderboard_command ledger g b).ledger = ledger ∧
      (b = ConfirmBranch.confirmed →
        (reset_points_all ledger g b).raised = true ∧
        (restart_leaderboard_command ledger g b).raised = true) ∧
      "clear_all_points" ∉ databaseManagerMethods := by
  intro ledger g b
  cases b with
  | timeout =>
    refine ⟨rfl, rfl, ?_, by decide⟩
    intro hcon
    simp at hcon
  | confirmed =>
    exact ⟨rfl, rfl, fun _ => ⟨rfl, rfl⟩, by decide⟩

/-- Witness for C10: the confirm branch on a concrete one-row ledger leaves
the balance in place and raises. -/
theorem c10_reset_flows_preserve_points_witness :
    (reset_points_all [((1, 7), 10)] 1 ConfirmBranch.confirmed).ledger =
      [((1, 7), 10)] ∧
    (reset_points_all [((1, 7), 10)] 1 ConfirmBranch.confirmed).raised =
      true :=
  ⟨(c10_reset_flows_preserve_points [((1, 7), 10)] 1
      ConfirmBranch.confirmed).1,
   ((c10_reset_flows_preserve_points [((1, 7), 10)] 1
      ConfirmBranch.confirmed).2.2.1 rfl).1⟩
